import Mathlib

/-!
Verification of the AeN_print label-printing core (`src/print_label.py`).

The development shallowly embeds the parts of the source that the spec's
contracts are about:

* `inc_nums` — the numeric-increment helper (a faithful model of
  `re.sub('(\d+(?:\.\d+)?)', lambda m: increment(m.group(0), 1), text)`
  together with the inner `increment`, which parses all-digit matches with
  `int` and matches containing a decimal point with `float`).  The `float`
  arithmetic of the source is modelled as exact decimal arithmetic; the two
  agree on every decimal whose shortest representation round-trips (all
  label-scale inputs, and all inputs named by the spec).  Python's `\d`
  is modelled as the ASCII digits, which is exact for the label texts at
  stake.
* `create_label` / `create_large` — the two ZPL templates, written as the
  exact concatenation the source's `str.format` performs.
* the module/namespace facts of the source file (its import list, its
  module-level names, the attributes of class `LabelApp`), which decide how
  the bare name `inc_nums` and the name `re` resolve at run time.
* `start_printer`, `on_stop`, `print_label` — the connection lifecycle and
  the batch loop, as a state-passing function that also records the trace
  of externally visible events (connect, render, send, delay, close, alert)
  and the outcome (normal return, alert-and-return, or an uncaught Python
  exception such as `NameError`).

Nondeterministic inputs of the source are passed in explicitly: network
reachability as `reachable : String → Bool` (models whether
`socket.connect` succeeds for a host) and the per-copy `uuid.uuid1()`
results as `uuids : Nat → String`.
-/

/-! ### Python string and number primitives -/

/-- Python slicing `t[:n]`, as used by the length-limited input widgets
(`ida.text = ida.text[:size]`) and by `uuid[:8]` in the templates. -/
def pySlice (t : String) (n : Nat) : String := ⟨t.data.take n⟩

/-- Value of a list of ASCII digit characters, most significant first:
models Python `int(text)` on an all-digit string (so `int("007") = 7`). -/
def digitsToNat (ds : List Char) : Nat :=
  ds.foldl (fun n c => 10 * n + (c.toNat - 48)) 0

/-- The decimal digit character for `d < 10`. -/
def digitChar (d : Nat) : Char := Char.ofNat (48 + d)

/-- Fuel-driven decimal rendering of a natural number (the fuel makes the
recursion structural so that the kernel can evaluate it). -/
def natToDecF : Nat → Nat → List Char → List Char
  | 0, _, acc => acc
  | fuel + 1, n, acc =>
    if n < 10 then digitChar n :: acc
    else natToDecF fuel (n / 10) (digitChar (n % 10) :: acc)

/-- Decimal rendering of a natural number: models Python `str` on a
nonnegative `int` (no sign, no leading zeros). -/
def natToDec (n : Nat) : List Char := natToDecF (n + 1) n []

/-- Drop trailing zeros of a fractional-digit list, keeping at least one
digit: models how Python `str` prints the fractional part of a float
(`str(float("1.50") + 1) = "2.5"`, `str(float("1.0") + 1) = "2.0"`). -/
def stripTrailFrac (f : List Char) : List Char :=
  if ((f.reverse.dropWhile (fun c => c = '0')).reverse).isEmpty then ['0']
  else (f.reverse.dropWhile (fun c => c = '0')).reverse

/-! ### The numeric-increment helper `LabelApp.inc_nums` -/

/-- A maximal numeric run matched by the pattern `\d+(?:\.\d+)?`:
a nonempty digit run, optionally followed by a decimal point and a second
nonempty digit run. -/
structure NumTok where
  intPart : List Char
  fracPart : Option (List Char)
deriving DecidableEq

/-- The characters of the matched run, as they stand in the scanned text. -/
def numTokChars (t : NumTok) : List Char :=
  t.intPart ++ (match t.fracPart with | none => [] | some f => '.' :: f)

/-- Match the pattern `\d+(?:\.\d+)?` at the head of the character list:
returns the token and the remaining characters, or `none` when the head is
not a digit.  This is the leftmost-longest match the `re` engine performs
at each position. -/
def scanNum : List Char → Option (NumTok × List Char)
  | [] => none
  | c :: cs =>
    if c.isDigit then
      match cs.dropWhile Char.isDigit with
      | '.' :: r1 =>
        if (r1.takeWhile Char.isDigit).isEmpty then
          some (⟨c :: cs.takeWhile Char.isDigit, none⟩, cs.dropWhile Char.isDigit)
        else
          some (⟨c :: cs.takeWhile Char.isDigit, some (r1.takeWhile Char.isDigit)⟩,
                r1.dropWhile Char.isDigit)
      | _ => some (⟨c :: cs.takeWhile Char.isDigit, none⟩, cs.dropWhile Char.isDigit)
    else none

/-- One replacement of the source's inner `increment(text, 1)`:
an all-digit match goes through `str(int(text) + 1)`, a match with a
decimal point goes through `str(float(text) + 1)` (modelled exactly on
decimals: the integer part grows by one, the fractional part is kept,
printed without trailing zeros). -/
def incTok (t : NumTok) : List Char :=
  match t.fracPart with
  | none => natToDec (digitsToNat t.intPart + 1)
  | some f => natToDec (digitsToNat t.intPart + 1) ++ '.' :: stripTrailFrac f

/-- The `re.sub` scan: move left to right; at a position where the pattern
matches, emit the replacement of the match and continue after it, otherwise
copy the character.  The fuel (initially the length of the list) makes the
recursion structural; every step consumes at least one character, so the
fuel never runs out on the initial call. -/
def subNumsF (g : NumTok → List Char) : Nat → List Char → List Char
  | 0, l => l
  | fuel + 1, l =>
    match l with
    | [] => []
    | c :: cs =>
      match scanNum (c :: cs) with
      | some (t, r) => g t ++ subNumsF g fuel r
      | none => c :: subNumsF g fuel cs

/-- `LabelApp.inc_nums` (lines 382–415 of the source): increment every
maximal numeric run of the text by 1.  This models the body
`re.sub('(\d+(?:\.\d+)?)', lambda m: increment(m.group(0), 1), text)`. -/
def inc_nums (text : String) : String :=
  ⟨subNumsF incTok text.data.length text.data⟩

/-- Characters that are neither ASCII digits nor the decimal point: the
characters the numeric scanner can never consume or produce. -/
def nonNumChar (c : Char) : Bool := !c.isDigit && !(c = '.')

/-! ### The ZPL templates (`create_label`, `create_large`)

Each template is the source's triple-quoted format string, split at the
format slots `{0}`…`{6}`; concatenating the segments with the substituted
values reproduces the `str.format` result character for character. -/

/-- Medium template up to the barcode command (source lines 115–122,
including the leading newline of the triple-quoted string). -/
def mHead : String := "\nCT~~CD,~CC^~CT~\n^XA~TA000~JSN^LT0^MNW^MTT^PON^PMN^LH0,0^JMA^PR4,4~SD30^JUS^LRN^CI28^XZ\n^XA\n^MMT\n^PW898\n^LL0295\n^LS0\n"

/-- Medium barcode command: the Datamatrix field whose data is the full
uuid (`^BXN,4,…` then `^FH\^FD{0}`). -/
def mBar : String := "^BY110,110^FT506,111^BXN,4,200,22,22,1,~\n^FH\\^FD"

/-- Medium text slot 1 command (`^FT445,151`, normal orientation `^A0N`). -/
def mF1 : String := "^FS\n^FT445,151^A0N,21,21^FH\\^FD"

/-- Medium text slot 2 command. -/
def mF2 : String := "^FS\n^FT445,184^A0N,21,21^FH\\^FD"

/-- Medium text slot 3 command. -/
def mF3 : String := "^FS\n^FT445,217^A0N,21,21^FH\\^FD"

/-- Medium text slot 4 command. -/
def mF4 : String := "^FS\n^FT445,253^A0N,21,21^FH\\^FD"

/-- Field separator closing slot 4, before the rotated uuid-prefix slot. -/
def mFS : String := "^FS\n"

/-- Medium uuid-prefix slot command: rotated orientation `^A0R` at the
fixed coordinates `462,33`. -/
def mRot : String := "^FT462,33^A0R,21,21^FH\\^FD"

/-- Medium template tail. -/
def mEnd : String := "^FS\n^PQ1,0,1,Y^XZ"

/-- `create_label` (source lines 85–138): the ZPL document for the Medium
label, with the uuid in the barcode slot, the four text fields in their
fixed slots, and `uuid[:8]` in the rotated prefix slot.  No argument is
truncated or otherwise transformed: `str.format` substitutes verbatim. -/
def create_label (uuid text1 text2 text3 text4 : String) : String :=
  mHead ++ mBar ++ uuid ++ mF1 ++ text1 ++ mF2 ++ text2 ++ mF3 ++ text3 ++
    mF4 ++ text4 ++ mFS ++ mRot ++ pySlice uuid 8 ++ mEnd

/-- Large template up to the barcode command (source lines 172–179). -/
def lHead : String := "\nCT~~CD,~CC^~CT~\n^XA~TA000~JSN^LT0^MNW^MTT^PON^PMN^LH0,0^JMA^PR4,4~SD28^JUS^LRN^CI28^XZ\n^XA\n^MMT\n^PW602\n^LL0295\n^LS0\n"

/-- Large barcode command (`^BXN,5,…` then `^FH\^FD{0}`). -/
def lBar : String := "^BY110,110^FT465,143^BXN,5,200,22,22,1,~\n^FH\\^FD"

/-- Field separator closing the Large barcode slot. -/
def lFS : String := "^FS\n"

/-- Large uuid-prefix slot command: normal orientation `^A0N` at the fixed
coordinates `491,171` (unlike the Medium template, not rotated). -/
def lPre : String := "^FT491,171^A0N,21,21^FH\\^FD"

/-- Large text slot 1 command. -/
def lF1 : String := "^FS\n^FT35,67^A0N,42,40^FH\\^FD"

/-- Large text slot 2 command. -/
def lF2 : String := "^FS\n^FT35,119^A0N,42,40^FH\\^FD"

/-- Large text slot 3 command. -/
def lF3 : String := "^FS\n^FT35,171^A0N,42,40^FH\\^FD"

/-- Large text slot 4 command. -/
def lF4 : String := "^FS\n^FT35,226^A0N,42,40^FH\\^FD"

/-- Large text slot 5 command. -/
def lF5 : String := "^FS\n^FT35,278^A0N,42,40^FH\\^FD"

/-- Large template tail. -/
def lEnd : String := "^FS\n^PQ1,0,1,Y^XZ"

/-- `create_large` (source lines 141–196): the ZPL document for the Large
(25x51 mm) label; the uuid in the barcode slot, `uuid[:8]` in the
normal-orientation prefix slot directly after it, then the five text
fields.  As in `create_label`, substitution is verbatim. -/
def create_large (uuid text1 text2 text3 text4 text5 : String) : String :=
  lHead ++ lBar ++ uuid ++ lFS ++ lPre ++ pySlice uuid 8 ++ lF1 ++ text1 ++
    lF2 ++ text2 ++ lF3 ++ text3 ++ lF4 ++ text4 ++ lF5 ++ text5 ++ lEnd

/-- `s` contains `pat` as a contiguous substring. -/
def StrContains (s pat : String) : Prop := ∃ a b, s = a ++ (pat ++ b)

/-- Does the character list starting here begin with `pat`? -/
def listStartsWith : List Char → List Char → Bool
  | _, [] => true
  | [], _ :: _ => false
  | c :: cs, p :: ps => c = p && listStartsWith cs ps

/-- Number of positions of `l` at which `pat` begins. -/
def countSubList (pat : List Char) : List Char → Nat
  | [] => 0
  | c :: cs => (if listStartsWith (c :: cs) pat then 1 else 0) + countSubList pat cs

/-- Number of occurrences (counted by start position) of `pat` in `s`. -/
def countSub (s pat : String) : Nat := countSubList pat.data s.data

/-! ### Name resolution facts of the source module

`print_label` calls the increment helper as the bare name `inc_nums`
(line 442).  Python resolves a bare name in a method body through the
local, enclosing, module and builtin scopes — the class body is not
searched.  The lists below are read off the source file. -/

/-- The modules imported by the source file (lines 31–56).  `re` is not
among them, although `inc_nums` uses `re.sub`. -/
def importedModules : List String :=
  ["sys", "os", "time", "uuid", "warnings", "socket", "yaml", "datetime",
   "argparse", "kivy.app", "kivy.uix.widget", "kivy.uix.textinput",
   "kivy.uix.button", "kivy.uix.bubble", "kivy.uix.floatlayout",
   "kivy.uix.gridlayout", "kivy.uix.anchorlayout", "kivy.uix.popup",
   "kivy.properties", "kivy.uix.label", "kivy.resources", "kivy.config"]

/-- The module-level names bound in the source file: imported names,
module constants and the top-level `def`/`class` statements.  `inc_nums`
is not among them (it is defined inside class `LabelApp`). -/
def moduleNames : List String :=
  ["sys", "os", "time", "uuid", "warnings", "socket", "yaml", "dt",
   "ArgumentParser", "RawDescriptionHelpFormatter", "App", "Widget",
   "TextInput", "Button", "Bubble", "FloatLayout", "GridLayout",
   "AnchorLayout", "Popup", "BooleanProperty", "Label", "NumericProperty",
   "resource_add_path", "Config", "__all__", "__version__", "__date__",
   "__updated__", "DEBUG", "TESTRUN", "PROFILE", "IPS", "new_hex_uuid",
   "create_label", "create_large", "LimitText", "Alert", "LabelWidget",
   "LabelApp", "read_config", "resourcePath", "main", "parse_options"]

/-- The local names of the method `print_label` (its parameter and the
names it assigns). -/
def localNamesPrintLabel : List String :=
  ["self", "text1", "text2", "text3", "text4", "text5", "n", "zpl"]

/-- The Python builtins the source relies on (a superset is harmless;
what matters is that `inc_nums` and `re` are not builtins). -/
def pyBuiltins : List String :=
  ["str", "int", "float", "range", "print", "len", "bytes", "open",
   "super", "hasattr", "__import__"]

/-- The attributes of class `LabelApp`: `inc_nums` lives here, so it is
reachable as `self.inc_nums`/`LabelApp.inc_nums` but not as a bare name. -/
def labelAppAttrs : List String :=
  ["title", "icon", "build", "on_stop", "start_printer", "send_to_printer",
   "inc_nums", "print_label"]

/-- Whether a bare name resolves inside the body of `print_label`
(local, module or builtin scope; the enclosing scope is the module). -/
def resolvesInPrintLabel (n : String) : Bool :=
  localNamesPrintLabel.contains n || moduleNames.contains n ||
    pyBuiltins.contains n

/-- The module-level default printer addresses (source lines 68–70). -/
def IPS : List (String × String) :=
  [("M", "158.39.88.208"), ("L", "158.39.89.81")]

/-! ### The app state and the batch driver (`LabelApp.print_label`) -/

/-- State of a Python socket object. -/
inductive ObjState
  | unconnected
  | connected (ip : String)
  | closed
deriving DecidableEq

/-- The `self.socket` attribute: `None` (before `build` assigns a socket)
or a socket object. -/
inductive SockState
  | isNone
  | obj (o : ObjState)
deriving DecidableEq

/-- The shared form state `print_label` reads (and, on line 443, would
write): the widget's text inputs, the increment checkbox, the copy count
and the size spinner. -/
structure PWidget where
  ipText : String
  text1 : String
  text2 : String
  text3 : String
  text4 : String
  text5 : String
  inc_num : Bool
  number : Nat
  setupText : String
deriving DecidableEq

/-- The caller-visible state of the `LabelApp` instance. -/
structure AppState where
  widget : PWidget
  socket : SockState
  IP : Option String
  PORT : Option Nat
  BUFFER_SIZE : Option Nat
deriving DecidableEq

/-- Externally visible events of one batch, in order. -/
inductive LEvent
  | openConn (ip : String)
  | render (doc : String)
  | send (doc : String)
  | delay
  | closeConn
  | alert (title msg : String)
deriving DecidableEq

/-- Uncaught Python exceptions the embedded code can raise. -/
inductive PyErr
  | nameError (n : String)
  | unboundLocal (n : String)
  | attributeError (n : String)
deriving DecidableEq

/-- Outcome of one `print_label` call. -/
inductive LResult
  | ok
  | needIP
  | connectError
  | pyError (e : PyErr)
deriving DecidableEq

/-- `LabelApp.start_printer` (source lines 354–367): records the endpoint
parameters, creates a socket object and connects it; a refused or
unreachable host leaves the fresh socket unconnected and reports failure
(the `ConnectionRefusedError`/`OSError` that `print_label` catches). -/
def start_printer (s : AppState) (reachable : String → Bool) (ip : String) :
    AppState × Bool :=
  if reachable ip then
    ({ s with IP := some ip, PORT := some 9100, BUFFER_SIZE := some 1024,
              socket := SockState.obj (ObjState.connected ip) }, true)
  else
    ({ s with IP := some ip, PORT := some 9100, BUFFER_SIZE := some 1024,
              socket := SockState.obj ObjState.unconnected }, false)

/-- `LabelApp.on_stop` (source lines 345–352): `if self.socket:
self.socket.close()`.  `None` is falsy, so the guard skips the call when
no socket was ever created; closing a socket object (connected, never
connected, or already closed) puts it in the closed state and never
raises.  The `Except` result records that no Python exception escapes:
without the guard, `None.close()` would be an `AttributeError`. -/
def on_stop (s : AppState) : Except PyErr (AppState × List LEvent) :=
  match s.socket with
  | SockState.isNone => Except.ok (s, [])
  | SockState.obj _ =>
      Except.ok ({ s with socket := SockState.obj ObjState.closed },
                 [LEvent.closeConn])

/-- The `if setup == 'Large' … elif setup == 'Medium'` chain of the loop
body (source lines 444–449): on any other spinner text, `zpl` stays
unassigned. -/
def renderFor (setup u t1 t2 t3 t4 t5 : String) : Option String :=
  if setup = "Large" then some (create_large u t1 t2 t3 t4 t5)
  else if setup = "Medium" then some (create_label u t1 t2 t3 t4)
  else none

/-- The document of one copy; total version of `renderFor` used to state
trace shapes (under a successful run the default is never taken). -/
def docOf (setup t1 t2 t3 t4 t5 u : String) : String :=
  (renderFor setup u t1 t2 t3 t4 t5).getD ""

/-- State threaded through the copy loop: the local `text4`, the widget
(line 443 would write it), and the events emitted so far. -/
structure LoopSt where
  text4 : String
  widget : PWidget
  events : List LEvent
deriving DecidableEq

/-- One iteration of the copy loop (source lines 440–451).  When the
increment checkbox is set, the body first evaluates the bare name
`inc_nums`; if it resolved it would evaluate `re.sub`, needing the name
`re`; only then would the new text be stored in the widget and used.  The
document is then rendered for the current size, sent, and the fixed delay
(`time.sleep(2 / 1e6)`) runs. -/
def copyBody (setup t1 t2 t3 t5 u : String) (st : LoopSt) :
    Except (LoopSt × PyErr) LoopSt :=
  if st.widget.inc_num then
    if resolvesInPrintLabel "inc_nums" then
      if importedModules.contains "re" then
        let t4 := inc_nums st.text4
        let st1 : LoopSt := ⟨t4, { st.widget with text4 := t4 }, st.events⟩
        match renderFor setup u t1 t2 t3 st1.text4 t5 with
        | some zpl =>
            Except.ok { st1 with events :=
              st1.events ++ [LEvent.render zpl, LEvent.send zpl, LEvent.delay] }
        | none => Except.error (st1, PyErr.unboundLocal "zpl")
      else Except.error (st, PyErr.nameError "re")
    else Except.error (st, PyErr.nameError "inc_nums")
  else
    match renderFor setup u t1 t2 t3 st.text4 t5 with
    | some zpl =>
        Except.ok { st with events :=
          st.events ++ [LEvent.render zpl, LEvent.send zpl, LEvent.delay] }
    | none => Except.error (st, PyErr.unboundLocal "zpl")

/-- The copy loop `for n in range(int(number.text))`, one uuid per copy. -/
def runLoop (setup t1 t2 t3 t5 : String) :
    List String → LoopSt → Except (LoopSt × PyErr) LoopSt
  | [], st => Except.ok st
  | u :: us, st =>
    match copyBody setup t1 t2 t3 t5 u st with
    | Except.ok st1 => runLoop setup t1 t2 t3 t5 us st1
    | Except.error e => Except.error e

/-- The trace a batch of copies emits when every copy succeeds: for each
copy, render then send then delay — the delay follows every copy, the
last one included. -/
def copyEvents (setup t1 t2 t3 t4 t5 : String) : List String → List LEvent
  | [] => []
  | u :: us =>
      LEvent.render (docOf setup t1 t2 t3 t4 t5 u) ::
      LEvent.send (docOf setup t1 t2 t3 t4 t5 u) ::
      LEvent.delay ::
      copyEvents setup t1 t2 t3 t4 t5 us

/-- `LabelApp.print_label` (source lines 417–453), the batch driver:
check the IP field, connect (alert and return on failure), read the five
texts, run the copy loop, and close the socket via `on_stop`.  An uncaught
exception inside the loop propagates: nothing further runs, in particular
`on_stop` does not, so the socket stays as it was.  The result bundles the
final app state, the event trace, and the outcome. -/
def print_label (s : AppState) (reachable : String → Bool)
    (uuids : Nat → String) : AppState × List LEvent × LResult :=
  if s.widget.ipText = "" then
    (s, [LEvent.alert "Need IP" "Please input an IP"], LResult.needIP)
  else
    match start_printer s reachable s.widget.ipText with
    | (s1, false) =>
        (s1, [LEvent.alert "Wrong IP" "Please input a valid/correct IP"],
         LResult.connectError)
    | (s1, true) =>
      match runLoop s.widget.setupText s.widget.text1 s.widget.text2
          s.widget.text3 s.widget.text5
          ((List.range s.widget.number).map uuids)
          ⟨s.widget.text4, s.widget, []⟩ with
      | Except.error (st, e) =>
          ({ s1 with widget := st.widget },
           LEvent.openConn s.widget.ipText :: st.events, LResult.pyError e)
      | Except.ok st =>
        match on_stop { s1 with widget := st.widget } with
        | Except.ok (s2, evc) =>
            (s2, LEvent.openConn s.widget.ipText :: (st.events ++ evc),
             LResult.ok)
        | Except.error e =>
            ({ s1 with widget := st.widget },
             LEvent.openConn s.widget.ipText :: st.events, LResult.pyError e)

/-- Is the event a send? -/
def isSendE : LEvent → Bool
  | LEvent.send _ => true
  | _ => false

/-- Is the event a render? -/
def isRenderE : LEvent → Bool
  | LEvent.render _ => true
  | _ => false

/-- Is the event a connection opening? -/
def isOpenE : LEvent → Bool
  | LEvent.openConn _ => true
  | _ => false

/-- Is the event a connection closing? -/
def isCloseE : LEvent → Bool
  | LEvent.closeConn => true
  | _ => false

/-- Is the socket attribute an open (connected) connection? -/
def isOpenSock : SockState → Bool
  | SockState.obj (ObjState.connected _) => true
  | _ => false


/-! ### Concrete scenarios -/

/-- The widget of the spec's end-to-end scenario: variant Medium, fields
"ID123", "Cruise A", "2024-06-01", "Box 1", copy count 3, increment flag
set, a reachable endpoint address. -/
def c1widget : PWidget :=
  ⟨"1.2.3.4", "ID123", "Cruise A", "2024-06-01", "Box 1", "", true, 3, "Medium"⟩

/-- App state at the start of the end-to-end scenario batch. -/
def c1state : AppState := ⟨c1widget, SockState.isNone, none, none, none⟩

/-- An increment-flag batch used to instantiate the NameError theorem. -/
def c4state : AppState :=
  ⟨⟨"9.9.9.9", "a", "b", "c", "Box 1", "", true, 2, "Medium"⟩,
   SockState.isNone, none, none, none⟩

/-- A batch whose endpoint refuses the connection. -/
def c5state : AppState :=
  ⟨⟨"8.8.8.8", "a", "b", "c", "d", "", false, 2, "Medium"⟩,
   SockState.isNone, none, none, none⟩

/-- A successful Medium batch of one copy, starting from a fresh app. -/
def c6state : AppState :=
  ⟨⟨"10.0.0.1", "a", "b", "c", "d", "", false, 1, "Medium"⟩,
   SockState.isNone, none, none, none⟩

/-- A successful Medium batch of two copies. -/
def c7state : AppState :=
  ⟨⟨"1.1.1.1", "a", "b", "c", "d", "e", false, 2, "Medium"⟩,
   SockState.isNone, none, none, none⟩

/-- A successful Large batch of two copies. -/
def c9state : AppState :=
  ⟨⟨"2.2.2.2", "a", "b", "c", "d", "e", false, 2, "Large"⟩,
   SockState.isNone, none, none, none⟩

/-- An app state holding an open connection, for the close contract. -/
def c10state : AppState :=
  ⟨⟨"3.3.3.3", "a", "b", "c", "d", "", false, 1, "Medium"⟩,
   SockState.obj (ObjState.connected "3.3.3.3"), some "3.3.3.3", some 9100,
   some 1024⟩

/-- The same app state after its connection was closed. -/
def c10closed : AppState :=
  ⟨⟨"3.3.3.3", "a", "b", "c", "d", "", false, 1, "Medium"⟩,
   SockState.obj ObjState.closed, some "3.3.3.3", some 9100, some 1024⟩

/-! ### Theorems: template containment helpers -/

/-- Idempotence of Python slicing: `t[:n][:n] = t[:n]`. -/
theorem pySlice_idem (t : String) (n : Nat) :
    pySlice (pySlice t n) n = pySlice t n := by
  simp [pySlice, List.take_take]

set_option maxRecDepth 8000 in
/-- C2 counterexample: the source's renderer does not truncate.  The
Medium variant's first slot is documented as limited to 18 characters,
yet `create_label` on a 19-character first field differs from
`create_label` on its 18-character truncation — if `render` truncated the
field to its maximum before substituting, as the claim states, the two
documents would be equal.  So the claim "render truncates the field to
exactly that maximum before substituting" is false of the code. -/
theorem create_label_no_truncation_cex :
    ("ABCDEFGHIJKLMNOPQRS" : String).length = 19 ∧
    create_label "u" "ABCDEFGHIJKLMNOPQRS" "" "" "" ≠
      create_label "u" (pySlice "ABCDEFGHIJKLMNOPQRS" 18) "" "" "" := by
  constructor
  · decide
  · decide

/-- C2 (amended): the renderer substitutes every field text verbatim —
each field of any length appears in full in the rendered document, and no
truncation happens in `create_label`/`create_large`; the per-slot length
limits are enforced upstream by the UI's length-limited input widgets,
whose truncation `text[:size]` (modelled by `pySlice`) is idempotent. -/
theorem render_substitutes_verbatim :
    (∀ u t1 t2 t3 t4 : String,
      StrContains (create_label u t1 t2 t3 t4) t1 ∧
      StrContains (create_label u t1 t2 t3 t4) t2 ∧
      StrContains (create_label u t1 t2 t3 t4) t3 ∧
      StrContains (create_label u t1 t2 t3 t4) t4) ∧
    (∀ u t1 t2 t3 t4 t5 : String,
      StrContains (create_large u t1 t2 t3 t4 t5) t1 ∧
      StrContains (create_large u t1 t2 t3 t4 t5) t2 ∧
      StrContains (create_large u t1 t2 t3 t4 t5) t3 ∧
      StrContains (create_large u t1 t2 t3 t4 t5) t4 ∧
      StrContains (create_large u t1 t2 t3 t4 t5) t5) ∧
    (∀ (t : String) (n : Nat), pySlice (pySlice t n) n = pySlice t n) := by
  refine ⟨fun u t1 t2 t3 t4 => ⟨?_, ?_, ?_, ?_⟩,
          fun u t1 t2 t3 t4 t5 => ⟨?_, ?_, ?_, ?_, ?_⟩,
          pySlice_idem⟩
  · exact ⟨mHead ++ mBar ++ u ++ mF1,
      mF2 ++ t2 ++ mF3 ++ t3 ++ mF4 ++ t4 ++ mFS ++ mRot ++ pySlice u 8 ++ mEnd,
      by simp only [create_label, String.append_assoc]⟩
  · exact ⟨mHead ++ mBar ++ u ++ mF1 ++ t1 ++ mF2,
      mF3 ++ t3 ++ mF4 ++ t4 ++ mFS ++ mRot ++ pySlice u 8 ++ mEnd,
      by simp only [create_label, String.append_assoc]⟩
  · exact ⟨mHead ++ mBar ++ u ++ mF1 ++ t1 ++ mF2 ++ t2 ++ mF3,
      mF4 ++ t4 ++ mFS ++ mRot ++ pySlice u 8 ++ mEnd,
      by simp only [create_label, String.append_assoc]⟩
  · exact ⟨mHead ++ mBar ++ u ++ mF1 ++ t1 ++ mF2 ++ t2 ++ mF3 ++ t3 ++ mF4,
      mFS ++ mRot ++ pySlice u 8 ++ mEnd,
      by simp only [create_label, String.append_assoc]⟩
  · exact ⟨lHead ++ lBar ++ u ++ lFS ++ lPre ++ pySlice u 8 ++ lF1,
      lF2 ++ t2 ++ lF3 ++ t3 ++ lF4 ++ t4 ++ lF5 ++ t5 ++ lEnd,
      by simp only [create_large, String.append_assoc]⟩
  · exact ⟨lHead ++ lBar ++ u ++ lFS ++ lPre ++ pySlice u 8 ++ lF1 ++ t1 ++ lF2,
      lF3 ++ t3 ++ lF4 ++ t4 ++ lF5 ++ t5 ++ lEnd,
      by simp only [create_large, String.append_assoc]⟩
  · exact ⟨lHead ++ lBar ++ u ++ lFS ++ lPre ++ pySlice u 8 ++ lF1 ++ t1 ++ lF2 ++
        t2 ++ lF3,
      lF4 ++ t4 ++ lF5 ++ t5 ++ lEnd,
      by simp only [create_large, String.append_assoc]⟩
  · exact ⟨lHead ++ lBar ++ u ++ lFS ++ lPre ++ pySlice u 8 ++ lF1 ++ t1 ++ lF2 ++
        t2 ++ lF3 ++ t3 ++ lF4,
      lF5 ++ t5 ++ lEnd,
      by simp only [create_large, String.append_assoc]⟩
  · exact ⟨lHead ++ lBar ++ u ++ lFS ++ lPre ++ pySlice u 8 ++ lF1 ++ t1 ++ lF2 ++
        t2 ++ lF3 ++ t3 ++ lF4 ++ t4 ++ lF5,
      lEnd,
      by simp only [create_large, String.append_assoc]⟩

set_option maxRecDepth 10000 in
/-- C8 counterexample: the claim asserts that for every variant the
document has exactly one rotated text field (the `^A0R` orientation
command) holding the identifier's 8-character prefix.  A Large document
from inputs free of the marker contains no occurrence of `A0R` at all —
its prefix field uses the normal orientation `^A0N` — while the Medium
document from the same inputs contains exactly one.  The claim is false
for the Large variant. -/
theorem large_no_rotated_field_cex :
    countSub (create_large "0123456789abcdef0123456789abcdef" "a" "b" "c" "d" "e")
      "A0R" = 0 ∧
    countSub (create_label "0123456789abcdef0123456789abcdef" "a" "b" "c" "d")
      "A0R" = 1 := by
  constructor
  · decide
  · decide

set_option maxRecDepth 10000 in
/-- C8 (amended): every Medium document carries the full identifier in the
barcode slot (`^BXN…^FD` + uuid) and the identifier's first 8 characters
in the rotated (`^A0R`) text field at the fixed coordinates 462,33; every
Large document carries the full identifier in its barcode slot and the
8-character prefix in a normal-orientation (`^A0N`) text field at the
fixed coordinates 491,171.  The Medium template's fixed part contains the
rotation command exactly once and the Large template's fixed part contains
it nowhere, so only the Medium variant has a rotated prefix field. -/
theorem render_identifier_fields :
    (∀ u t1 t2 t3 t4 : String,
      StrContains (create_label u t1 t2 t3 t4) (mBar ++ u) ∧
      StrContains (create_label u t1 t2 t3 t4) (mRot ++ pySlice u 8)) ∧
    (∀ u t1 t2 t3 t4 t5 : String,
      StrContains (create_large u t1 t2 t3 t4 t5) (lBar ++ u) ∧
      StrContains (create_large u t1 t2 t3 t4 t5) (lPre ++ pySlice u 8)) ∧
    countSub (mHead ++ mBar ++ mF1 ++ mF2 ++ mF3 ++ mF4 ++ mFS ++ mRot ++ mEnd)
      "A0R" = 1 ∧
    countSub (lHead ++ lBar ++ lFS ++ lPre ++ lF1 ++ lF2 ++ lF3 ++ lF4 ++ lF5 ++ lEnd)
      "A0R" = 0 := by
  refine ⟨fun u t1 t2 t3 t4 => ⟨?_, ?_⟩, fun u t1 t2 t3 t4 t5 => ⟨?_, ?_⟩, ?_, ?_⟩
  · exact ⟨mHead,
      mF1 ++ t1 ++ mF2 ++ t2 ++ mF3 ++ t3 ++ mF4 ++ t4 ++ mFS ++ mRot ++
        pySlice u 8 ++ mEnd,
      by simp only [create_label, String.append_assoc]⟩
  · exact ⟨mHead ++ mBar ++ u ++ mF1 ++ t1 ++ mF2 ++ t2 ++ mF3 ++ t3 ++ mF4 ++
        t4 ++ mFS,
      mEnd,
      by simp only [create_label, String.append_assoc]⟩
  · exact ⟨lHead,
      lFS ++ lPre ++ pySlice u 8 ++ lF1 ++ t1 ++ lF2 ++ t2 ++ lF3 ++ t3 ++ lF4 ++
        t4 ++ lF5 ++ t5 ++ lEnd,
      by simp only [create_large, String.append_assoc]⟩
  · exact ⟨lHead ++ lBar ++ u ++ lFS,
      lF1 ++ t1 ++ lF2 ++ t2 ++ lF3 ++ t3 ++ lF4 ++ t4 ++ lF5 ++ t5 ++ lEnd,
      by simp only [create_large, String.append_assoc]⟩
  · decide
  · decide

/-! ### Theorems: the numeric scanner -/

/-- A successful match of the numeric pattern decomposes the scanned list
into the matched characters followed by the rest, the matched integer part
is a nonempty digit run, and the fractional part (when present) is a digit
run. -/
theorem scanNum_spec : ∀ {l : List Char} {t : NumTok} {r : List Char},
    scanNum l = some (t, r) →
    l = numTokChars t ++ r ∧ t.intPart ≠ [] ∧
    (∀ c ∈ t.intPart, c.isDigit) ∧
    (∀ f, t.fracPart = some f → ∀ c ∈ f, c.isDigit) := by
  intro l t r h
  match l with
  | [] => simp [scanNum] at h
  | c :: cs =>
    simp only [scanNum] at h
    by_cases hc : c.isDigit
    · rw [if_pos hc] at h
      split at h
      · rename_i r1 heq
        split at h
        · obtain ⟨ht, hr⟩ := Prod.mk.injEq .. ▸ (Option.some.inj h)
          subst ht; subst hr
          refine ⟨?_, by simp, ?_, by simp⟩
          · simp only [numTokChars]
            simp only [List.cons_append, List.append_nil]
            rw [List.takeWhile_append_dropWhile]
          · intro x hx
            rcases List.mem_cons.mp hx with h1 | h2
            · exact h1 ▸ hc
            · exact List.mem_takeWhile_imp h2
        · obtain ⟨ht, hr⟩ := Prod.mk.injEq .. ▸ (Option.some.inj h)
          subst ht; subst hr
          refine ⟨?_, by simp, ?_, ?_⟩
          · simp only [numTokChars]
            have h1 : cs.takeWhile Char.isDigit ++ cs.dropWhile Char.isDigit = cs :=
              List.takeWhile_append_dropWhile Char.isDigit cs
            have h2 : r1.takeWhile Char.isDigit ++ r1.dropWhile Char.isDigit = r1 :=
              List.takeWhile_append_dropWhile Char.isDigit r1
            simp only [List.cons_append, List.append_assoc]
            rw [h2, ← heq, h1]
          · intro x hx
            rcases List.mem_cons.mp hx with h1 | h2
            · exact h1 ▸ hc
            · exact List.mem_takeWhile_imp h2
          · intro f hf x hx
            simp only [Option.some.injEq] at hf
            subst hf
            exact List.mem_takeWhile_imp hx
      · obtain ⟨ht, hr⟩ := Prod.mk.injEq .. ▸ (Option.some.inj h)
        subst ht; subst hr
        refine ⟨?_, by simp, ?_, by simp⟩
        · simp only [numTokChars]
          simp only [List.cons_append, List.append_nil]
          rw [List.takeWhile_append_dropWhile]
        · intro x hx
          rcases List.mem_cons.mp hx with h1 | h2
          · exact h1 ▸ hc
          · exact List.mem_takeWhile_imp h2
    · rw [if_neg hc] at h
      exact absurd h (by simp)

/-- The rest after a successful match is strictly shorter than the input:
the match consumes at least the leading digit. -/
theorem scanNum_rest_lt {l : List Char} {t : NumTok} {r : List Char}
    (h : scanNum l = some (t, r)) : r.length < l.length := by
  obtain ⟨heq, hne, -, -⟩ := scanNum_spec h
  have hpos : 0 < (numTokChars t).length := by
    cases hti : t.intPart with
    | nil => exact absurd hti hne
    | cons a as => simp [numTokChars, hti]
  have hlen := congrArg List.length heq
  simp only [List.length_append] at hlen
  omega

/-- Decimal digit characters are digits. -/
theorem digitChar_isDigit {d : Nat} (h : d < 10) : (digitChar d).isDigit := by
  interval_cases d <;> decide

/-- Every character `natToDecF` emits is a digit. -/
theorem natToDecF_digits : ∀ (fuel n : Nat) (acc : List Char),
    (∀ c ∈ acc, c.isDigit) → ∀ c ∈ natToDecF fuel n acc, c.isDigit := by
  intro fuel
  induction fuel with
  | zero => intro n acc hacc c hc; exact hacc c hc
  | succ m ih =>
    intro n acc hacc c hc
    simp only [natToDecF] at hc
    split at hc
    · rcases List.mem_cons.mp hc with h1 | h2
      · exact h1 ▸ digitChar_isDigit (by omega)
      · exact hacc c h2
    · refine ih (n / 10) _ ?_ c hc
      intro x hx
      rcases List.mem_cons.mp hx with h1 | h2
      · exact h1 ▸ digitChar_isDigit (Nat.mod_lt _ (by omega))
      · exact hacc x h2

/-- The decimal rendering of a natural number consists of digits only. -/
theorem natToDec_digits (n : Nat) : ∀ c ∈ natToDec n, c.isDigit :=
  natToDecF_digits (n + 1) n [] (by simp)

/-- Stripping trailing zeros of a digit run yields digits only. -/
theorem stripTrailFrac_digits {f : List Char} (hf : ∀ c ∈ f, c.isDigit) :
    ∀ c ∈ stripTrailFrac f, c.isDigit := by
  intro c hc
  simp only [stripTrailFrac] at hc
  split at hc
  · have hc0 : c = '0' := by simpa using hc
    exact hc0 ▸ (by decide)
  · have h1 : c ∈ f.reverse.dropWhile (fun x => x = '0') := List.mem_reverse.mp hc
    have h2 : c ∈ f.reverse := (List.dropWhile_sublist _).mem h1
    exact hf c (List.mem_reverse.mp h2)

/-- A list of digits has no characters outside the numeric alphabet. -/
theorem filter_eq_nil_of_digits {l : List Char} (h : ∀ c ∈ l, c.isDigit) :
    l.filter nonNumChar = [] := by
  rw [List.filter_eq_nil_iff]
  intro a ha
  simp [nonNumChar, h a ha]

/-- A replacement emitted by the increment never contains characters
outside the numeric alphabet. -/
theorem incTok_filter {t : NumTok}
    (hf : ∀ f, t.fracPart = some f → ∀ c ∈ f, c.isDigit) :
    (incTok t).filter nonNumChar = [] := by
  cases hfp : t.fracPart with
  | none =>
    simp only [incTok, hfp]
    exact filter_eq_nil_of_digits (natToDec_digits _)
  | some f =>
    simp only [incTok, hfp, List.filter_append]
    rw [filter_eq_nil_of_digits (natToDec_digits _), List.filter_cons]
    have hdot : nonNumChar '.' = false := by decide
    rw [filter_eq_nil_of_digits (stripTrailFrac_digits (hf f hfp))]
    simp [hdot]

/-- The characters a match consumes are all inside the numeric alphabet. -/
theorem numTokChars_filter {t : NumTok} (hi : ∀ c ∈ t.intPart, c.isDigit)
    (hf : ∀ f, t.fracPart = some f → ∀ c ∈ f, c.isDigit) :
    (numTokChars t).filter nonNumChar = [] := by
  cases hfp : t.fracPart with
  | none =>
    simp only [numTokChars, hfp, List.append_nil]
    exact filter_eq_nil_of_digits hi
  | some f =>
    simp only [numTokChars, hfp, List.filter_append]
    rw [filter_eq_nil_of_digits hi, List.filter_cons]
    have hdot : nonNumChar '.' = false := by decide
    rw [filter_eq_nil_of_digits (hf f hfp)]
    simp [hdot]

/-- The substitution scan only rewrites inside the numeric alphabet: the
subsequence of characters that are neither digits nor the decimal point is
untouched, in content and in order. -/
theorem subNumsF_filter : ∀ (fuel : Nat) (l : List Char), l.length ≤ fuel →
    (subNumsF incTok fuel l).filter nonNumChar = l.filter nonNumChar := by
  intro fuel
  induction fuel with
  | zero => intro l hl; rfl
  | succ m ih =>
    intro l hl
    match l with
    | [] => rfl
    | c :: cs =>
      simp only [subNumsF]
      rcases hsc : scanNum (c :: cs) with - | ⟨t, r⟩
      · simp only [List.filter_cons]
        rw [ih cs (by simpa using Nat.le_of_succ_le_succ hl)]
      · obtain ⟨heq, -, hint, hfrac⟩ := scanNum_spec hsc
        have hr : r.length ≤ m := by
          have h1 := scanNum_rest_lt hsc
          simp only [List.length_cons] at h1 hl
          omega
        conv_rhs => rw [heq]
        rw [List.filter_append, List.filter_append, incTok_filter hfrac,
            numTokChars_filter hint hfrac, ih r hr]

/-- C3: the increment algorithm of `inc_nums` maps "A7B" to "A8B", "v1.5"
to "v2.5", leaves "no digits" unchanged, and maps "x007y" to "x8y"
(leading zeros are lost through the `int` round-trip and not
re-introduced); moreover every character outside the numeric alphabet is
preserved along with its position relative to the other such characters
(the filter of non-numeric characters is untouched).  The first conjunct
records the defect that keeps the source from ever computing this: the
module `re`, which `inc_nums` calls, is absent from the source's import
list, so every actual call raises `NameError` before any of this runs. -/
theorem inc_nums_algorithm :
    importedModules.contains "re" = false ∧
    inc_nums "A7B" = "A8B" ∧
    inc_nums "v1.5" = "v2.5" ∧
    inc_nums "no digits" = "no digits" ∧
    inc_nums "x007y" = "x8y" ∧
    ∀ s : String,
      (inc_nums s).data.filter nonNumChar = s.data.filter nonNumChar := by
  refine ⟨by decide, by decide, by decide, by decide, by decide, fun s => ?_⟩
  exact subNumsF_filter s.data.length s.data (Nat.le_refl _)

/-! ### Theorems: the batch driver -/

/-- The bare name `inc_nums` does not resolve inside `print_label`: it is
neither a local, nor a module-level name, nor a builtin. -/
theorem resolves_inc_nums : resolvesInPrintLabel "inc_nums" = false := by decide

/-- The module `re` is never imported by the source file. -/
theorem re_not_imported : importedModules.contains "re" = false := by decide

/-- A loop iteration only succeeds when the increment checkbox is clear:
it renders the current field values and appends the render/send/delay
triple to the trace, leaving text4 and the widget unchanged. -/
theorem copyBody_ok_inv {setup t1 t2 t3 t5 u : String} {st st1 : LoopSt}
    (h : copyBody setup t1 t2 t3 t5 u st = Except.ok st1) :
    st.widget.inc_num = false ∧
    ∃ zpl, renderFor setup u t1 t2 t3 st.text4 t5 = some zpl ∧
      st1 = ⟨st.text4, st.widget,
             st.events ++ [LEvent.render zpl, LEvent.send zpl, LEvent.delay]⟩ := by
  cases hinc : st.widget.inc_num with
  | true =>
    exfalso
    simp only [copyBody, hinc, resolves_inc_nums, if_true, if_false] at h
    simp at h
  | false =>
    simp only [copyBody, hinc] at h
    simp only [Bool.false_eq_true, if_false] at h
    split at h
    · rename_i zpl hrf
      refine ⟨rfl, zpl, hrf, ?_⟩
      have := Except.ok.inj h
      cases st1
      cases st
      simp_all
    · exact absurd h (by simp)

/-- A failing loop iteration leaves the loop state exactly as it was. -/
theorem copyBody_error_inv {setup t1 t2 t3 t5 u : String} {st st1 : LoopSt}
    {e : PyErr} (h : copyBody setup t1 t2 t3 t5 u st = Except.error (st1, e)) :
    st1 = st := by
  cases hinc : st.widget.inc_num with
  | true =>
    simp only [copyBody, hinc, resolves_inc_nums, if_true, if_false] at h
    simp only [Bool.false_eq_true, if_false] at h
    have := Except.error.inj h
    exact (Prod.mk.injEq .. ▸ this).1.symm
  | false =>
    simp only [copyBody, hinc] at h
    simp only [Bool.false_eq_true, if_false] at h
    split at h
    · exact absurd h (by simp)
    · have := Except.error.inj h
      exact (Prod.mk.injEq .. ▸ this).1.symm

/-- A successful copy loop leaves widget and text4 unchanged and appends
exactly the render/send/delay triples of its copies, in order. -/
theorem runLoop_ok_inv (setup t1 t2 t3 t5 : String) :
    ∀ (us : List String) (st st' : LoopSt),
      runLoop setup t1 t2 t3 t5 us st = Except.ok st' →
      st'.widget = st.widget ∧ st'.text4 = st.text4 ∧
      st'.events = st.events ++
        copyEvents setup t1 t2 t3 st.text4 t5 us := by
  intro us
  induction us with
  | nil =>
    intro st st' h
    have := Except.ok.inj h
    subst this
    simp [copyEvents]
  | cons u us ih =>
    intro st st' h
    simp only [runLoop] at h
    rcases hcb : copyBody setup t1 t2 t3 t5 u st with e | st1
    · rw [hcb] at h; exact absurd h (by simp)
    · rw [hcb] at h
      obtain ⟨hinc, zpl, hrf, hst1⟩ := copyBody_ok_inv hcb
      obtain ⟨hw, ht4, hev⟩ := ih st1 st' h
      subst hst1
      refine ⟨hw, ht4, ?_⟩
      simp only [copyEvents, docOf, hrf, Option.getD_some] at hev ⊢
      simp only [hev, List.append_assoc, List.cons_append, List.nil_append]

/-- A failing copy loop never changes the widget. -/
theorem runLoop_error_widget (setup t1 t2 t3 t5 : String) :
    ∀ (us : List String) (st st' : LoopSt) (e : PyErr),
      runLoop setup t1 t2 t3 t5 us st = Except.error (st', e) →
      st'.widget = st.widget := by
  intro us
  induction us with
  | nil => intro st st' e h; exact absurd h (by simp [runLoop])
  | cons u us ih =>
    intro st st' e h
    simp only [runLoop] at h
    rcases hcb : copyBody setup t1 t2 t3 t5 u st with e1 | st1
    · rw [hcb] at h
      rcases e1 with ⟨st2, e2⟩
      have h2 := Except.error.inj h
      cases h2
      exact (copyBody_error_inv hcb) ▸ rfl
    · rw [hcb] at h
      obtain ⟨hinc, zpl, hrf, hst1⟩ := copyBody_ok_inv hcb
      have := ih st1 st' e h
      subst hst1
      simpa using this

/-- The trace of every batch that returns normally: one connection
opening, then the render/send/delay triple of each copy, then one close. -/
theorem print_label_ok_trace (s : AppState) (reachable : String → Bool)
    (uuids : Nat → String)
    (h : (print_label s reachable uuids).2.2 = LResult.ok) :
    (print_label s reachable uuids).2.1 =
      LEvent.openConn s.widget.ipText ::
        (copyEvents s.widget.setupText s.widget.text1 s.widget.text2 s.widget.text3
          s.widget.text4 s.widget.text5 ((List.range s.widget.number).map uuids) ++
         [LEvent.closeConn]) := by
  by_cases hip : s.widget.ipText = ""
  · simp [print_label, hip] at h
  · cases hre : reachable s.widget.ipText with
    | false => simp [print_label, hip, start_printer, hre] at h
    | true =>
      rcases hrl : runLoop s.widget.setupText s.widget.text1 s.widget.text2
          s.widget.text3 s.widget.text5 ((List.range s.widget.number).map uuids)
          ⟨s.widget.text4, s.widget, []⟩ with ⟨st, e⟩ | st
      · simp [print_label, hip, start_printer, hre, hrl] at h
      · obtain ⟨hw, ht4, hev⟩ := runLoop_ok_inv _ _ _ _ _ _ _ _ hrl
        simp only [print_label, hip, start_printer, hre, hrl, on_stop,
          if_true, if_false, ite_true, ite_false, if_neg hip] at h ⊢
        simp only [hev] at h ⊢
        simp [on_stop] at h ⊢

/-- A batch body holds one send per copy. -/
theorem copyEvents_countP_send (setup t1 t2 t3 t4 t5 : String) :
    ∀ us : List String,
      (copyEvents setup t1 t2 t3 t4 t5 us).countP isSendE = us.length := by
  intro us
  induction us with
  | nil => rfl
  | cons u us ih => simp [copyEvents, List.countP_cons, isSendE, ih]

/-- A batch body opens no connection. -/
theorem copyEvents_countP_open (setup t1 t2 t3 t4 t5 : String) :
    ∀ us : List String,
      (copyEvents setup t1 t2 t3 t4 t5 us).countP isOpenE = 0 := by
  intro us
  induction us with
  | nil => rfl
  | cons u us ih => simp [copyEvents, List.countP_cons, isOpenE, ih]

/-- A batch body closes no connection. -/
theorem copyEvents_countP_close (setup t1 t2 t3 t4 t5 : String) :
    ∀ us : List String,
      (copyEvents setup t1 t2 t3 t4 t5 us).countP isCloseE = 0 := by
  intro us
  induction us with
  | nil => rfl
  | cons u us ih => simp [copyEvents, List.countP_cons, isCloseE, ih]

/-- C7: every batch that returns normally opens the connection exactly
once — as its first event, before the first copy — performs exactly one
send per requested copy over that connection, and closes it exactly once,
as its last event, after the last copy; no re-open or re-close occurs
between copies. -/
theorem print_label_success_lifecycle (s : AppState) (reachable : String → Bool)
    (uuids : Nat → String)
    (h : (print_label s reachable uuids).2.2 = LResult.ok) :
    ((print_label s reachable uuids).2.1.countP isOpenE = 1 ∧
     (print_label s reachable uuids).2.1.countP isCloseE = 1 ∧
     (print_label s reachable uuids).2.1.countP isSendE = s.widget.number) ∧
    (print_label s reachable uuids).2.1.head? =
      some (LEvent.openConn s.widget.ipText) ∧
    (print_label s reachable uuids).2.1.getLast? = some LEvent.closeConn := by
  have htr := print_label_ok_trace s reachable uuids h
  rw [htr]
  refine ⟨⟨?_, ?_, ?_⟩, rfl, ?_⟩
  · simp [List.countP_cons, List.countP_append, copyEvents_countP_open, isOpenE,
      isCloseE]
  · simp [List.countP_cons, List.countP_append, copyEvents_countP_close, isOpenE,
      isCloseE]
  · simp [List.countP_cons, List.countP_append, copyEvents_countP_send, isSendE]
  · rw [show LEvent.openConn s.widget.ipText ::
        (copyEvents s.widget.setupText s.widget.text1 s.widget.text2 s.widget.text3
          s.widget.text4 s.widget.text5 ((List.range s.widget.number).map uuids) ++
         [LEvent.closeConn]) =
        (LEvent.openConn s.widget.ipText ::
          copyEvents s.widget.setupText s.widget.text1 s.widget.text2 s.widget.text3
            s.widget.text4 s.widget.text5 ((List.range s.widget.number).map uuids)) ++
         [LEvent.closeConn] from rfl]
    exact List.getLast?_concat _

/-- C4: for every batch started with the increment flag set (nonempty IP
field, reachable endpoint, at least one requested copy), the first
iteration of the copy loop raises `NameError` before any document is
rendered or sent: the trace holds nothing but the connection opening.
The bare name `inc_nums` is unresolvable from `print_label` (it is only a
`LabelApp` class attribute), and the module `re` that its body needs is
never imported. -/
theorem print_label_increment_name_error (s : AppState)
    (reachable : String → Bool) (uuids : Nat → String)
    (hinc : s.widget.inc_num = true) (hip : s.widget.ipText ≠ "")
    (hre : reachable s.widget.ipText = true) (hn : 1 ≤ s.widget.number) :
    (print_label s reachable uuids).2.2 =
      LResult.pyError (PyErr.nameError "inc_nums") ∧
    (print_label s reachable uuids).2.1 = [LEvent.openConn s.widget.ipText] ∧
    (print_label s reachable uuids).2.1.countP isRenderE = 0 ∧
    (print_label s reachable uuids).2.1.countP isSendE = 0 ∧
    resolvesInPrintLabel "inc_nums" = false ∧
    labelAppAttrs.contains "inc_nums" = true ∧
    importedModules.contains "re" = false := by
  obtain ⟨k, hk⟩ : ∃ k, s.widget.number = k + 1 := ⟨s.widget.number - 1, by omega⟩
  have hrange : (List.range s.widget.number).map uuids =
      uuids 0 :: ((List.range k).map Nat.succ).map uuids := by
    rw [hk, List.range_succ_eq_map, List.map_cons]
  have hrl : runLoop s.widget.setupText s.widget.text1 s.widget.text2
      s.widget.text3 s.widget.text5 ((List.range s.widget.number).map uuids)
      ⟨s.widget.text4, s.widget, []⟩ =
      Except.error (⟨s.widget.text4, s.widget, []⟩, PyErr.nameError "inc_nums") := by
    rw [hrange]
    simp [runLoop, copyBody, hinc, resolves_inc_nums]
  refine ⟨?_, ?_, ?_, ?_, resolves_inc_nums, by decide, by decide⟩
  · simp [print_label, hip, start_printer, hre, hrl]
  · simp [print_label, hip, start_printer, hre, hrl]
  · simp [print_label, hip, start_printer, hre, hrl, List.countP_cons, isRenderE]
  · simp [print_label, hip, start_printer, hre, hrl, List.countP_cons, isSendE]

/-- C5: for every batch in which opening the connection fails (nonempty
IP field, unreachable endpoint), `print_label` performs zero sends,
generates no document, surfaces the connect-error condition to the caller
(the "Wrong IP" alert and an aborted batch), and the connection object
ends in the unopened state — created but never connected, never open. -/
theorem print_label_connect_fail (s : AppState) (reachable : String → Bool)
    (uuids : Nat → String) (hip : s.widget.ipText ≠ "")
    (hre : reachable s.widget.ipText = false) :
    (print_label s reachable uuids).2.2 = LResult.connectError ∧
    (print_label s reachable uuids).2.1 =
      [LEvent.alert "Wrong IP" "Please input a valid/correct IP"] ∧
    (print_label s reachable uuids).2.1.countP isSendE = 0 ∧
    (print_label s reachable uuids).2.1.countP isRenderE = 0 ∧
    (print_label s reachable uuids).1.socket =
      SockState.obj ObjState.unconnected ∧
    isOpenSock (print_label s reachable uuids).1.socket = false := by
  refine ⟨?_, ?_, ?_, ?_, ?_, ?_⟩ <;>
    simp [print_label, hip, start_printer, hre, List.countP_cons, isSendE,
      isRenderE, isOpenSock]

/-- C6 (amended): the batch driver never writes the shared form/widget
state — on every execution path (empty IP field, failed connect, the
NameError abort, or a normal return) the widget comes back unchanged; the
widget write on source line 443 is dynamically unreachable because the
`inc_nums` call before it always raises.  App-level connection attributes
(socket, IP, PORT, BUFFER_SIZE), by contrast, are mutated and persist
across batches, as the separate counterexample shows. -/
theorem print_label_widget_unchanged (s : AppState) (reachable : String → Bool)
    (uuids : Nat → String) :
    (print_label s reachable uuids).1.widget = s.widget := by
  by_cases hip : s.widget.ipText = ""
  · simp [print_label, hip]
  · cases hre : reachable s.widget.ipText with
    | false => simp [print_label, hip, start_printer, hre]
    | true =>
      rcases hrl : runLoop s.widget.setupText s.widget.text1 s.widget.text2
          s.widget.text3 s.widget.text5 ((List.range s.widget.number).map uuids)
          ⟨s.widget.text4, s.widget, []⟩ with ⟨st, e⟩ | st
      · have hw := runLoop_error_widget _ _ _ _ _ _ _ _ _ hrl
        simp [print_label, hip, start_printer, hre, hrl, hw]
      · obtain ⟨hw, -, -⟩ := runLoop_ok_inv _ _ _ _ _ _ _ _ hrl
        simp [print_label, hip, start_printer, hre, hrl, on_stop, hw]

/-- C10: the close operation `on_stop` never raises, for every app state
and hence after every sequence of prior open/close calls: for a
never-opened connection (`self.socket` still `None`) the truthiness guard
makes it a no-op, and closing is idempotent — after one `on_stop`, a
second one returns exactly the same state. -/
theorem on_stop_close_contract : ∀ s : AppState,
    (∃ p, on_stop s = Except.ok p) ∧
    (s.socket = SockState.isNone → on_stop s = Except.ok (s, [])) ∧
    (∀ s1 evs, on_stop s = Except.ok (s1, evs) →
      ∃ evs2, on_stop s1 = Except.ok (s1, evs2)) := by
  intro s
  refine ⟨?_, ?_, ?_⟩
  · cases hs : s.socket with
    | isNone => exact ⟨(s, []), by simp [on_stop, hs]⟩
    | obj o =>
      exact ⟨({ s with socket := SockState.obj ObjState.closed },
        [LEvent.closeConn]), by simp [on_stop, hs]⟩
  · intro h
    simp [on_stop, h]
  · intro s1 evs h
    cases hs : s.socket with
    | isNone =>
      simp only [on_stop, hs] at h
      have h1 := (Prod.mk.injEq .. ▸ Except.ok.inj h).1
      subst h1
      exact ⟨[], by simp [on_stop, hs]⟩
    | obj o =>
      simp only [on_stop, hs] at h
      have h1 := (Prod.mk.injEq .. ▸ Except.ok.inj h).1
      subst h1
      exact ⟨[LEvent.closeConn], by simp [on_stop]⟩

set_option maxRecDepth 8000 in
/-- C1 counterexample: in the spec's end-to-end scenario (variant Medium,
fields "ID123"/"Cruise A"/"2024-06-01"/"Box 1", three copies, increment
flag set, reachable endpoint) the code sends zero documents and never
closes the connection: the first loop iteration fails before anything is
rendered or sent.  This refutes the claim that exactly three documents
with field values "Box 1", "Box 2", "Box 3" are sent and that the
connection is opened once and closed once. -/
theorem print_label_c1_counterexample :
    (print_label c1state (fun _ => true) (fun _ => "u")).2.1.countP isSendE = 0 ∧
    (print_label c1state (fun _ => true) (fun _ => "u")).2.1.countP isCloseE = 0 := by
  constructor
  · decide
  · decide

set_option maxRecDepth 8000 in
/-- C1 (amended): in the end-to-end scenario the batch opens the
connection once and then aborts on the first copy iteration with a
`NameError` on the unresolvable bare name `inc_nums`, before any document
is rendered or sent; no numeric field is incremented, the widget state is
unchanged, and the connection is left open — `print_label` never reaches
its closing step. -/
theorem print_label_c1_behavior :
    print_label c1state (fun _ => true) (fun _ => "u") =
      ({ widget := c1widget,
         socket := SockState.obj (ObjState.connected "1.2.3.4"),
         IP := some "1.2.3.4", PORT := some 9100, BUFFER_SIZE := some 1024 },
       [LEvent.openConn "1.2.3.4"],
       LResult.pyError (PyErr.nameError "inc_nums")) := by
  decide

set_option maxRecDepth 8000 in
/-- C6 counterexample: after one successful batch, caller-visible mutable
state of the app has changed beyond the bytes written to the socket, and
the change persists into the next batch: `self.socket` now holds a closed
socket object (it was `None`) and `self.IP` holds the batch's endpoint
address (it was unset).  This refutes the claim that no mutable state
persists from one batch to the next apart from the read-only default
endpoint addresses. -/
theorem print_label_state_persists_cex :
    (print_label c6state (fun _ => true) (fun _ => "u")).2.2 = LResult.ok ∧
    (print_label c6state (fun _ => true) (fun _ => "u")).1.socket ≠ c6state.socket ∧
    (print_label c6state (fun _ => true) (fun _ => "u")).1.IP ≠ c6state.IP := by
  refine ⟨by decide, by decide, by decide⟩

/-- C9: within each copy of a successful batch the events are ordered
render, then send, then the fixed inter-copy delay, and the delay follows
every copy including the last: the full trace is the connection opening,
then per copy the render/send/delay triple, then the single close. -/
theorem print_label_copy_order (s : AppState) (reachable : String → Bool)
    (uuids : Nat → String)
    (h : (print_label s reachable uuids).2.2 = LResult.ok) :
    (print_label s reachable uuids).2.1 =
      LEvent.openConn s.widget.ipText ::
        (copyEvents s.widget.setupText s.widget.text1 s.widget.text2 s.widget.text3
          s.widget.text4 s.widget.text5 ((List.range s.widget.number).map uuids) ++
         [LEvent.closeConn]) :=
  print_label_ok_trace s reachable uuids h

set_option maxRecDepth 8000 in
/-- Witness for the C9 copy-order theorem: a successful Large batch of two
copies, with its hypothesis discharged by evaluation. -/
theorem print_label_copy_order_witness :
    (print_label c9state (fun _ => true) (fun _ => "u")).2.1 =
      LEvent.openConn c9state.widget.ipText ::
        (copyEvents c9state.widget.setupText c9state.widget.text1
          c9state.widget.text2 c9state.widget.text3 c9state.widget.text4
          c9state.widget.text5
          ((List.range c9state.widget.number).map (fun _ => "u")) ++
         [LEvent.closeConn]) :=
  print_label_copy_order c9state (fun _ => true) (fun _ => "u") (by decide)

set_option maxRecDepth 8000 in
/-- Witness for the C7 lifecycle theorem: a successful Medium batch of two
copies, with its hypothesis discharged by evaluation. -/
theorem print_label_success_lifecycle_witness :
    (((print_label c7state (fun _ => true) (fun _ => "u")).2.1.countP isOpenE = 1 ∧
      (print_label c7state (fun _ => true) (fun _ => "u")).2.1.countP isCloseE = 1 ∧
      (print_label c7state (fun _ => true) (fun _ => "u")).2.1.countP isSendE =
        c7state.widget.number) ∧
     (print_label c7state (fun _ => true) (fun _ => "u")).2.1.head? =
       some (LEvent.openConn c7state.widget.ipText) ∧
     (print_label c7state (fun _ => true) (fun _ => "u")).2.1.getLast? =
       some LEvent.closeConn) :=
  print_label_success_lifecycle c7state (fun _ => true) (fun _ => "u") (by decide)

set_option maxRecDepth 8000 in
/-- Witness for the C4 NameError theorem: an increment-flag batch of two
copies against a reachable endpoint, hypotheses discharged by evaluation. -/
theorem print_label_increment_name_error_witness :
    ((print_label c4state (fun _ => true) (fun _ => "u")).2.2 =
       LResult.pyError (PyErr.nameError "inc_nums") ∧
     (print_label c4state (fun _ => true) (fun _ => "u")).2.1 =
       [LEvent.openConn c4state.widget.ipText] ∧
     (print_label c4state (fun _ => true) (fun _ => "u")).2.1.countP isRenderE = 0 ∧
     (print_label c4state (fun _ => true) (fun _ => "u")).2.1.countP isSendE = 0 ∧
     resolvesInPrintLabel "inc_nums" = false ∧
     labelAppAttrs.contains "inc_nums" = true ∧
     importedModules.contains "re" = false) :=
  print_label_increment_name_error c4state (fun _ => true) (fun _ => "u")
    (by decide) (by decide) (by decide) (by decide)

set_option maxRecDepth 8000 in
/-- Witness for the C5 connect-failure theorem: a batch whose endpoint
refuses the connection, hypotheses discharged by evaluation. -/
theorem print_label_connect_fail_witness :
    ((print_label c5state (fun _ => false) (fun _ => "u")).2.2 =
       LResult.connectError ∧
     (print_label c5state (fun _ => false) (fun _ => "u")).2.1 =
       [LEvent.alert "Wrong IP" "Please input a valid/correct IP"] ∧
     (print_label c5state (fun _ => false) (fun _ => "u")).2.1.countP isSendE = 0 ∧
     (print_label c5state (fun _ => false) (fun _ => "u")).2.1.countP isRenderE = 0 ∧
     (print_label c5state (fun _ => false) (fun _ => "u")).1.socket =
       SockState.obj ObjState.unconnected ∧
     isOpenSock (print_label c5state (fun _ => false) (fun _ => "u")).1.socket =
       false) :=
  print_label_connect_fail c5state (fun _ => false) (fun _ => "u")
    (by decide) (by decide)

/-- Witness for the C10 close contract: closing an app state holding an
open connection succeeds, and closing the resulting already-closed state
is a no-op on the state; the inner hypothesis is discharged by
evaluation. -/
theorem on_stop_close_contract_witness :
    (∃ p, on_stop c10state = Except.ok p) ∧
    (∃ evs2, on_stop c10closed = Except.ok (c10closed, evs2)) :=
  ⟨(on_stop_close_contract c10state).1,
   (on_stop_close_contract c10state).2.2 c10closed [LEvent.closeConn] rfl⟩
